import Mathlib

/-
Verification of the geometry and normalisation pipeline of
normalised_face_cropper.py.

The program is embedded shallowly:
  - numpy arrays of pixels become the structure Image: an explicit
    (height, width) shape together with a total pixel function; basic
    numpy slicing with unit step becomes numpySlice.
  - Python floats become rationals wherever the program only performs
    field arithmetic, and reals where it calls trigonometric routines.
  - np.rint (round half to even) becomes rint on rationals and rintR
    on reals.
  - the two mediapipe detector handles and the cv2 affine warp are
    external collaborators and enter as function parameters.
  - code that can raise returns Option: rotate_landmarks fails on any
    landmark list whose length differs from 4, because the hard-coded
    homogeneous row [1, 1, 1, 1] then makes the np.array input ragged;
    get_face_roll_angle_checked makes the float division guard explicit.
-/

/-- Round half to even on rationals, the behaviour of np.rint. -/
def rint (q : ℚ) : ℤ :=
  if q - ⌊q⌋ < 1/2 then ⌊q⌋
  else if q - ⌊q⌋ > 1/2 then ⌊q⌋ + 1
  else if ⌊q⌋ % 2 = 0 then ⌊q⌋ else ⌊q⌋ + 1

/-- Round half to even on reals, the behaviour of np.rint. -/
noncomputable def rintR (x : ℝ) : ℤ :=
  if x - ⌊x⌋ < 1/2 then ⌊x⌋
  else if x - ⌊x⌋ > 1/2 then ⌊x⌋ + 1
  else if ⌊x⌋ % 2 = 0 then ⌊x⌋ else ⌊x⌋ + 1

/-- An image: a numpy pixel array with explicit (height, width) shape. The
pixel function is total; only indices below the shape are meaningful. -/
structure Image where
  height : ℕ
  width : ℕ
  pixel : ℕ → ℕ → ℤ

/-- Two images agree as arrays: same shape and same pixel content. -/
def Image.sameAs (a b : Image) : Prop :=
  a.height = b.height ∧ a.width = b.width ∧
    ∀ i j : ℕ, i < a.height → j < a.width → a.pixel i j = b.pixel i j

/-- A mediapipe RelativeBoundingBox: fractions of the image dimensions. -/
structure RelBox where
  xmin : ℚ
  ymin : ℚ
  width : ℚ
  height : ℚ

/-- A normalized landmark point, coordinates in fractions of the image. -/
structure Landmark where
  x : ℚ
  y : ℚ

/-- A mediapipe landmark set, indexed by the fixed landmark topology. -/
def LandmarkSet : Type := ℕ → Landmark

/-- A 2 by 3 affine transform matrix with real entries, as produced by
cv2.getRotationMatrix2D. -/
structure RotM where
  a00 : ℝ
  a01 : ℝ
  a02 : ℝ
  a10 : ℝ
  a11 : ℝ
  a12 : ℝ

/-- Normalisation of one python slice endpoint against an axis length:
negative values wrap once, then the value is clipped into [0, len]. -/
def pySliceIndex (v : ℤ) (len : ℕ) : ℕ :=
  (max 0 (min (if v < 0 then v + len else v) (len : ℤ))).toNat

/-- Basic numpy slicing image[r0:r1, c0:c1] with unit steps. -/
def numpySlice (img : Image) (r0 r1 c0 c1 : ℤ) : Image :=
  { height := pySliceIndex r1 img.height - pySliceIndex r0 img.height
    width := pySliceIndex c1 img.width - pySliceIndex c0 img.width
    pixel := fun i j =>
      img.pixel (pySliceIndex r0 img.height + i) (pySliceIndex c0 img.width + j) }

/-- Embedding of safe_crop_image: each bound is clipped by the if chains of
the source into [0, dimension - 1], then the slice
image[top:bottom, left:right+1] is taken. -/
def safe_crop_image (image : Image) (top bottom left right : ℤ) : Image :=
  numpySlice image
    (if top < 0 then 0
     else if top ≥ (image.height : ℤ) then (image.height : ℤ) - 1 else top)
    (if bottom < 0 then 0
     else if bottom ≥ (image.height : ℤ) then (image.height : ℤ) - 1 else bottom)
    (if left < 0 then 0
     else if left ≥ (image.width : ℤ) then (image.width : ℤ) - 1 else left)
    ((if right < 0 then 0
      else if right ≥ (image.width : ℤ) then (image.width : ℤ) - 1 else right) + 1)

/-- Embedding of get_face_image: scale the normalized box corners by the
image dimensions, round with np.rint, and crop via safe_crop_image. -/
def get_face_image (image : Image) (face_box : RelBox) : Image :=
  safe_crop_image image
    (rint (face_box.ymin * image.height))
    (rint ((face_box.ymin + face_box.height) * image.height))
    (rint (face_box.xmin * image.width))
    (rint ((face_box.xmin + face_box.width) * image.width))

/-- Embedding of get_left_and_right_eye_centres: for each eye, the landmark
coordinate sums are scaled and divided by the list length, the row value is
flipped to a height-up value via height - 1 - row, and np.rint is applied. -/
def get_left_and_right_eye_centres (left_eye_landmarks right_eye_landmarks : List Landmark)
    (image_width image_height : ℕ) : (ℤ × ℤ) × (ℤ × ℤ) :=
  ((rint ((left_eye_landmarks.map Landmark.x).sum * image_width / left_eye_landmarks.length),
    rint ((image_height : ℚ) - 1 -
      (left_eye_landmarks.map Landmark.y).sum * image_height / left_eye_landmarks.length)),
   (rint ((right_eye_landmarks.map Landmark.x).sum * image_width / right_eye_landmarks.length),
    rint ((image_height : ℚ) - 1 -
      (right_eye_landmarks.map Landmark.y).sum * image_height / right_eye_landmarks.length)))

/-- Embedding of get_eyes_midpoint: average the two x values, and apply the
height-up flip to the average of the two y values, rounding with np.rint. -/
def get_eyes_midpoint (left_eye_centre right_eye_centre : ℤ × ℤ)
    (image_height : ℕ) : ℤ × ℤ :=
  (rint (((left_eye_centre.1 : ℚ) + right_eye_centre.1) / 2),
   rint ((image_height : ℚ) - 1 - ((left_eye_centre.2 : ℚ) + right_eye_centre.2) / 2))

/-- Embedding of get_face_roll_angle: the four way branch of the source,
with np.degrees (np.arctan gradient) for the generic branches. -/
noncomputable def get_face_roll_angle (left_eye_centre right_eye_centre : ℤ × ℤ) : ℝ :=
  if right_eye_centre.2 = left_eye_centre.2 then
    (if right_eye_centre.1 ≥ left_eye_centre.1 then 0 else 180)
  else if right_eye_centre.1 = left_eye_centre.1 then
    (if right_eye_centre.2 > left_eye_centre.2 then 90 else 270)
  else
    if right_eye_centre.1 > left_eye_centre.1 then
      Real.arctan (((right_eye_centre.2 : ℝ) - (left_eye_centre.2 : ℝ)) /
        ((right_eye_centre.1 : ℝ) - (left_eye_centre.1 : ℝ))) * 180 / Real.pi
    else
      180 + Real.arctan (((right_eye_centre.2 : ℝ) - (left_eye_centre.2 : ℝ)) /
        ((right_eye_centre.1 : ℝ) - (left_eye_centre.1 : ℝ))) * 180 / Real.pi

/-- Variant of get_face_roll_angle in which the float division carries an
explicit zero-denominator guard: a division by zero would return none. -/
noncomputable def get_face_roll_angle_checked (left_eye_centre right_eye_centre : ℤ × ℤ) :
    Option ℝ :=
  if right_eye_centre.2 = left_eye_centre.2 then
    (if right_eye_centre.1 ≥ left_eye_centre.1 then some 0 else some 180)
  else if right_eye_centre.1 = left_eye_centre.1 then
    (if right_eye_centre.2 > left_eye_centre.2 then some 90 else some 270)
  else
    if ((right_eye_centre.1 : ℝ) - (left_eye_centre.1 : ℝ)) = 0 then none
    else if right_eye_centre.1 > left_eye_centre.1 then
      some (Real.arctan (((right_eye_centre.2 : ℝ) - (left_eye_centre.2 : ℝ)) /
        ((right_eye_centre.1 : ℝ) - (left_eye_centre.1 : ℝ))) * 180 / Real.pi)
    else
      some (180 + Real.arctan (((right_eye_centre.2 : ℝ) - (left_eye_centre.2 : ℝ)) /
        ((right_eye_centre.1 : ℝ) - (left_eye_centre.1 : ℝ))) * 180 / Real.pi)

/-- The fixed landmark topology indices of the left eye. -/
def left_eye_landmark_indices : List ℕ :=
  [33, 7, 163, 144, 145, 153, 154, 155, 133, 173, 157, 158, 159, 160, 161, 246]

/-- The fixed landmark topology indices of the right eye. -/
def right_eye_landmark_indices : List ℕ :=
  [362, 382, 381, 380, 374, 373, 390, 249, 263, 466, 388, 387, 386, 385, 384, 398]

/-- The fixed landmark topology indices of the four face edges. -/
def face_edge_landmark_indices : List ℕ := [234, 152, 454, 10]

/-- The matrix returned by cv2.getRotationMatrix2D for a pivot, an angle in
degrees and a scale, per the documented closed form. -/
noncomputable def getRotationMatrix2D (cx cy : ℤ) (angle scale : ℝ) : RotM :=
  { a00 := scale * Real.cos (angle * Real.pi / 180)
    a01 := scale * Real.sin (angle * Real.pi / 180)
    a02 := (1 - scale * Real.cos (angle * Real.pi / 180)) * (cx : ℝ) -
      scale * Real.sin (angle * Real.pi / 180) * (cy : ℝ)
    a10 := -(scale * Real.sin (angle * Real.pi / 180))
    a11 := scale * Real.cos (angle * Real.pi / 180)
    a12 := scale * Real.sin (angle * Real.pi / 180) * (cx : ℝ) +
      (1 - scale * Real.cos (angle * Real.pi / 180)) * (cy : ℝ) }

/-- Embedding of rotate_landmarks. The source stacks the landmark pixel
coordinates over the hard-coded homogeneous row [1, 1, 1, 1]; when the
landmark list does not have exactly 4 entries the np.array input is ragged
and the call raises, modelled as none. Otherwise the 2 by 3 matrix is
multiplied with the 3 by n stack and each entry is rounded by np.rint,
giving the pair (row of x values, row of y values). -/
noncomputable def rotate_landmarks (landmarks : List Landmark) (rotation_matrix : RotM)
    (image_width image_height : ℕ) : Option (List ℤ × List ℤ) :=
  if landmarks.length = 4 then
    some
      (landmarks.map (fun p =>
        rintR (rotation_matrix.a00 * ((p.x : ℝ) * image_width) +
          rotation_matrix.a01 * ((p.y : ℝ) * image_height) + rotation_matrix.a02)),
       landmarks.map (fun p =>
        rintR (rotation_matrix.a10 * ((p.x : ℝ) * image_width) +
          rotation_matrix.a11 * ((p.y : ℝ) * image_height) + rotation_matrix.a12)))
  else none

/-- Embedding of get_normalised_face_image. The affine warp primitive of
cv2 is an external collaborator passed as warpAffine. The rotated edge
landmark matrix entries [1,3], [1,1], [0,0], [0,2] become the top, bottom,
left and right bounds of the final safe crop. In the program the landmark
list always has 4 entries, so the none branch of rotate_landmarks is dead;
it is mapped to an empty image. -/
noncomputable def get_normalised_face_image (warpAffine : Image → RotM → ℕ × ℕ → Image)
    (face_image : Image) (face_edge_landmarks : List Landmark)
    (eyes_midpoint : ℤ × ℤ) (roll_angle : ℝ) : Image :=
  match rotate_landmarks face_edge_landmarks
      (getRotationMatrix2D eyes_midpoint.1 eyes_midpoint.2 (-roll_angle) 1)
      face_image.width face_image.height with
  | some rotated_landmarks =>
      safe_crop_image
        (warpAffine face_image
          (getRotationMatrix2D eyes_midpoint.1 eyes_midpoint.2 (-roll_angle) 1)
          (face_image.width, face_image.height))
        (rotated_landmarks.2.getD 3 0) (rotated_landmarks.2.getD 1 0)
        (rotated_landmarks.1.getD 0 0) (rotated_landmarks.1.getD 2 0)
  | none => { height := 0, width := 0, pixel := fun _ _ => 0 }

/-- One iteration of the face loop of crop_faces_from_image: crop the face
box, run the landmark detector, and on success produce the normalised face
image; none when the detector finds no landmarks. -/
noncomputable def process_face (landmarkDetector : Image → Option LandmarkSet)
    (warpAffine : Image → RotM → ℕ × ℕ → Image) (image : Image) (face_box : RelBox) :
    Option Image :=
  match landmarkDetector (get_face_image image face_box) with
  | none => none
  | some lset =>
      some (get_normalised_face_image warpAffine (get_face_image image face_box)
        (face_edge_landmark_indices.map lset)
        (get_eyes_midpoint
          (get_left_and_right_eye_centres (left_eye_landmark_indices.map lset)
            (right_eye_landmark_indices.map lset)
            (get_face_image image face_box).width (get_face_image image face_box).height).1
          (get_left_and_right_eye_centres (left_eye_landmark_indices.map lset)
            (right_eye_landmark_indices.map lset)
            (get_face_image image face_box).width (get_face_image image face_box).height).2
          (get_face_image image face_box).height)
        (get_face_roll_angle
          (get_left_and_right_eye_centres (left_eye_landmark_indices.map lset)
            (right_eye_landmark_indices.map lset)
            (get_face_image image face_box).width (get_face_image image face_box).height).1
          (get_left_and_right_eye_centres (left_eye_landmark_indices.map lset)
            (right_eye_landmark_indices.map lset)
            (get_face_image image face_box).width (get_face_image image face_box).height).2))

/-- Embedding of crop_faces_from_image, with the two detector handles and
the affine warp primitive as external collaborators. When the face detector
yields none the function falls through and returns none; otherwise each
detected face is processed in order and the successes are collected. -/
noncomputable def crop_faces_from_image (faceDetector : Image → Option (List RelBox))
    (landmarkDetector : Image → Option LandmarkSet)
    (warpAffine : Image → RotM → ℕ × ℕ → Image) (image : Image) :
    Option (List Image) :=
  match faceDetector image with
  | none => none
  | some detected_faces =>
      some (detected_faces.filterMap (process_face landmarkDetector warpAffine image))

/-- Spec-side clamp of a bound into [0, dim - 1]. -/
def clampZ (v : ℤ) (dim : ℕ) : ℤ := max 0 (min v ((dim : ℤ) - 1))

theorem codeClamp_eq_clampZ (v : ℤ) (dim : ℕ) (hd : 0 < dim) :
    (if v < 0 then 0 else if v ≥ (dim : ℤ) then (dim : ℤ) - 1 else v) = clampZ v dim := by
  unfold clampZ
  split_ifs <;> omega

theorem clampZ_nonneg (v : ℤ) (dim : ℕ) : 0 ≤ clampZ v dim := by
  unfold clampZ
  omega

theorem clampZ_le (v : ℤ) (dim : ℕ) (hd : 0 < dim) : clampZ v dim ≤ (dim : ℤ) - 1 := by
  unfold clampZ
  omega

theorem pySliceIndex_of_bounds (v : ℤ) (len : ℕ) (h0 : 0 ≤ v) (h1 : v ≤ (len : ℤ)) :
    pySliceIndex v len = v.toNat := by
  unfold pySliceIndex
  split_ifs <;> omega

theorem safe_crop_image_spec (image : Image) (top bottom left right : ℤ)
    (hh : 0 < image.height) (hw : 0 < image.width) :
    ((safe_crop_image image top bottom left right).height : ℤ) =
        max 0 (clampZ bottom image.height - clampZ top image.height) ∧
    ((safe_crop_image image top bottom left right).width : ℤ) =
        max 0 (clampZ right image.width + 1 - clampZ left image.width) ∧
    ∀ i j : ℕ, (safe_crop_image image top bottom left right).pixel i j =
      image.pixel ((clampZ top image.height).toNat + i) ((clampZ left image.width).toNat + j) := by
  unfold safe_crop_image numpySlice
  rw [codeClamp_eq_clampZ top _ hh, codeClamp_eq_clampZ bottom _ hh,
    codeClamp_eq_clampZ left _ hw, codeClamp_eq_clampZ right _ hw]
  rw [pySliceIndex_of_bounds (clampZ top image.height) image.height (clampZ_nonneg _ _)
      (by have := clampZ_le top image.height hh; omega),
    pySliceIndex_of_bounds (clampZ bottom image.height) image.height (clampZ_nonneg _ _)
      (by have := clampZ_le bottom image.height hh; omega),
    pySliceIndex_of_bounds (clampZ left image.width) image.width (clampZ_nonneg _ _)
      (by have := clampZ_le left image.width hw; omega),
    pySliceIndex_of_bounds (clampZ right image.width + 1) image.width
      (by have := clampZ_nonneg right image.width; omega)
      (by have := clampZ_le right image.width hw; omega)]
  refine ⟨?_, ?_, fun i j => rfl⟩
  · dsimp only
    have h0 := clampZ_nonneg top image.height
    have h1 := clampZ_nonneg bottom image.height
    omega
  · dsimp only
    have h0 := clampZ_nonneg left image.width
    have h1 := clampZ_nonneg right image.width
    omega

theorem rint_intCast (m : ℤ) : rint (m : ℚ) = m := by
  unfold rint
  rw [Int.floor_intCast]
  norm_num

theorem rint_natCast (n : ℕ) : rint (n : ℚ) = n := by
  rw [show ((n : ℚ)) = (((n : ℤ)) : ℚ) by push_cast; ring, rint_intCast]

theorem rint_zero : rint 0 = 0 := by
  simpa using rint_intCast 0

/-- The full-extent bounding box of the spec scenario. -/
def fullBox : RelBox := { xmin := 0, ymin := 0, width := 1, height := 1 }

/-- A concrete 2 by 2 test image. -/
def demo2 : Image := { height := 2, width := 2, pixel := fun i j => (i : ℤ) * 2 + (j : ℤ) }

/-- A concrete 3 by 3 test image. -/
def demo3 : Image := { height := 3, width := 3, pixel := fun i j => (i : ℤ) * 3 + (j : ℤ) }

/-- A concrete 2 by 3 test image. -/
def demo4 : Image := { height := 2, width := 3, pixel := fun i j => (i : ℤ) * 3 + (j : ℤ) }

theorem get_face_image_fullBox (image : Image) :
    get_face_image image fullBox =
      safe_crop_image image 0 (image.height : ℤ) 0 (image.width : ℤ) := by
  unfold get_face_image fullBox
  dsimp only
  simp only [zero_mul, zero_add, one_mul, rint_zero, rint_natCast]

/-- C1: the claim that the full-extent box is an identity crop fails: on a
concrete 2 by 2 image the crop differs from the original. -/
theorem claim_C1_counterexample : ¬ Image.sameAs (get_face_image demo2 fullBox) demo2 := by
  intro h
  have h1 := h.1
  rw [get_face_image_fullBox] at h1
  have h2 : (safe_crop_image demo2 0 ((demo2.height : ℕ) : ℤ) 0 ((demo2.width : ℕ) : ℤ)).height
      = 1 := by decide
  rw [h2] at h1
  norm_num [demo2] at h1

/-- C1 amended: with the full-extent box {xmin 0, ymin 0, width 1, height 1}
the Face Clipper returns the original image with its last row removed: the
output has height - 1 rows, all width columns, and pixel (i, j) of the
output equals pixel (i, j) of the input. -/
theorem claim_C1_amended (image : Image) (hh : 0 < image.height) (hw : 0 < image.width) :
    (get_face_image image fullBox).height = image.height - 1 ∧
    (get_face_image image fullBox).width = image.width ∧
    ∀ i j : ℕ, i < image.height - 1 → j < image.width →
      (get_face_image image fullBox).pixel i j = image.pixel i j := by
  rw [get_face_image_fullBox]
  obtain ⟨h1, h2, h3⟩ := safe_crop_image_spec image 0 (image.height : ℤ) 0 (image.width : ℤ) hh hw
  have ct : clampZ 0 image.height = 0 := by unfold clampZ; omega
  have cb : clampZ (image.height : ℤ) image.height = (image.height : ℤ) - 1 := by
    unfold clampZ; omega
  have cl : clampZ 0 image.width = 0 := by unfold clampZ; omega
  have cr : clampZ (image.width : ℤ) image.width = (image.width : ℤ) - 1 := by
    unfold clampZ; omega
  rw [ct, cb] at h1
  rw [cl, cr] at h2
  rw [ct, cl] at h3
  refine ⟨by omega, by omega, fun i j hi hj => ?_⟩
  rw [h3 i j]
  norm_num

/-- C1 witness at the concrete image demo2. -/
theorem claim_C1_witness :
    (get_face_image demo2 fullBox).height = demo2.height - 1 ∧
    (get_face_image demo2 fullBox).width = demo2.width ∧
    (get_face_image demo2 fullBox).pixel 0 1 = demo2.pixel 0 1 := by
  obtain ⟨h1, h2, h3⟩ := claim_C1_amended demo2 (by norm_num [demo2]) (by norm_num [demo2])
  exact ⟨h1, h2, h3 0 1 (by norm_num [demo2]) (by norm_num [demo2])⟩

/-- C5: safe_crop_image clamps each bound independently into
[0, dimension - 1] (rows against the height, columns against the width) and
returns the sub image image[top:bottom, left:right+1]: the row range is
half open, the column range is inclusive, the pixels are the corresponding
block of the input, and a clamped top at or above the clamped bottom yields
a zero-row image rather than an error. -/
theorem claim_C5 (image : Image) (top bottom left right : ℤ)
    (hh : 0 < image.height) (hw : 0 < image.width) :
    ((safe_crop_image image top bottom left right).height : ℤ) =
        max 0 (clampZ bottom image.height - clampZ top image.height) ∧
    ((safe_crop_image image top bottom left right).width : ℤ) =
        max 0 (clampZ right image.width + 1 - clampZ left image.width) ∧
    (∀ i j : ℕ, i < (safe_crop_image image top bottom left right).height →
      j < (safe_crop_image image top bottom left right).width →
      (safe_crop_image image top bottom left right).pixel i j =
        image.pixel ((clampZ top image.height).toNat + i)
          ((clampZ left image.width).toNat + j)) ∧
    (clampZ bottom image.height ≤ clampZ top image.height →
      (safe_crop_image image top bottom left right).height = 0) := by
  obtain ⟨h1, h2, h3⟩ := safe_crop_image_spec image top bottom left right hh hw
  exact ⟨h1, h2, fun i j _ _ => h3 i j, fun hle => by omega⟩

/-- C5 witness at concrete out-of-range bounds on demo3. -/
theorem claim_C5_witness :
    ((safe_crop_image demo3 (-1) 5 (-2) 7).height : ℤ) =
        max 0 (clampZ 5 demo3.height - clampZ (-1) demo3.height) ∧
    ((safe_crop_image demo3 (-1) 5 (-2) 7).width : ℤ) =
        max 0 (clampZ 7 demo3.width + 1 - clampZ (-2) demo3.width) ∧
    (safe_crop_image demo3 (-1) 5 (-2) 7).pixel 1 2 =
      demo3.pixel ((clampZ (-1) demo3.height).toNat + 1)
        ((clampZ (-2) demo3.width).toNat + 2) := by
  obtain ⟨h1, h2, h3, h4⟩ :=
    claim_C5 demo3 (-1) 5 (-2) 7 (by norm_num [demo3]) (by norm_num [demo3])
  exact ⟨h1, h2, h3 1 2 (by decide) (by decide)⟩

/-- C10: the output of safe_crop_image is a contiguous sub block of the
input: pixel (i, j) of the output equals pixel (top' + i, left' + j) of the
input, where top' and left' are the clamped top and left bounds. In this
embedding safe_crop_image is a total pure function, which carries the
no-exception and no-mutation parts of the claim. -/
theorem claim_C10 (image : Image) (top bottom left right : ℤ)
    (hh : 0 < image.height) (hw : 0 < image.width) :
    ∀ i j : ℕ, i < (safe_crop_image image top bottom left right).height →
      j < (safe_crop_image image top bottom left right).width →
      (safe_crop_image image top bottom left right).pixel i j =
        image.pixel ((clampZ top image.height).toNat + i)
          ((clampZ left image.width).toNat + j) := by
  obtain ⟨-, -, h3⟩ := safe_crop_image_spec image top bottom left right hh hw
  exact fun i j _ _ => h3 i j

/-- C10 witness at concrete bounds on demo4. -/
theorem claim_C10_witness :
    (safe_crop_image demo4 0 2 1 5).pixel 0 1 =
      demo4.pixel ((clampZ 0 demo4.height).toNat + 0) ((clampZ 1 demo4.width).toNat + 1) :=
  claim_C10 demo4 0 2 1 5 (by norm_num [demo4]) (by norm_num [demo4]) 0 1
    (by decide) (by decide)

/-- Sixteen landmarks concentrated at normalized (1/4, 1/2). -/
def exL2 : List Landmark := List.replicate 16 { x := 1/4, y := 1/2 }

/-- Sixteen landmarks concentrated at normalized (3/4, 1/2). -/
def exR2 : List Landmark := List.replicate 16 { x := 3/4, y := 1/2 }

/-- C2: the claimed midpoint formula
y = height - 1 - round((left_row + right_row) / 2) over the pre-flip rows
fails: eye centres (25, 49) and (75, 49), reachable from
get_left_and_right_eye_centres on a 100 by 100 face image, have pre-flip
rows 50 and 50, the claimed formula gives 49, but get_eyes_midpoint
returns y = 50. -/
theorem claim_C2_counterexample :
    get_left_and_right_eye_centres exL2 exR2 100 100 = ((25, 49), (75, 49)) ∧
    get_eyes_midpoint (25, 49) (75, 49) 100 = (50, 50) ∧
    (50 : ℤ) ≠ 100 - 1 - rint ((((100 : ℚ) - 1 - 49) + ((100 : ℚ) - 1 - 49)) / 2) := by
  refine ⟨?_, ?_, ?_⟩
  · norm_num [get_left_and_right_eye_centres, exL2, exR2, List.replicate, rint]
  · norm_num [get_eyes_midpoint, rint]
  · norm_num [rint]

/-- C2 amended: the x coordinate of get_eyes_midpoint is
round((left.x + right.x) / 2), and the y coordinate is
round((left_row + right_row) / 2), the rounded mean of the pre-flip rows
height - 1 - left.y and height - 1 - right.y, with exactly one rounding
step per coordinate. The flip the function applies to its already flipped
inputs cancels, so the returned y is the mean row itself, not
height - 1 - round(mean row). -/
theorem claim_C2_amended (left_eye_centre right_eye_centre : ℤ × ℤ) (image_height : ℕ) :
    get_eyes_midpoint left_eye_centre right_eye_centre image_height =
      (rint (((left_eye_centre.1 : ℚ) + (right_eye_centre.1 : ℚ)) / 2),
       rint ((((image_height : ℚ) - 1 - (left_eye_centre.2 : ℚ)) +
         ((image_height : ℚ) - 1 - (right_eye_centre.2 : ℚ))) / 2)) := by
  unfold get_eyes_midpoint
  have h : (image_height : ℚ) - 1 - ((left_eye_centre.2 : ℚ) + (right_eye_centre.2 : ℚ)) / 2 =
      (((image_height : ℚ) - 1 - (left_eye_centre.2 : ℚ)) +
        ((image_height : ℚ) - 1 - (right_eye_centre.2 : ℚ))) / 2 := by
    ring
  rw [h]

/-- Sixteen landmarks concentrated at normalized (3/10, 1/2). -/
def exL3 : List Landmark := List.replicate 16 { x := 3/10, y := 1/2 }

/-- Sixteen landmarks concentrated at normalized (7/10, 1/2). -/
def exR3 : List Landmark := List.replicate 16 { x := 7/10, y := 1/2 }

/-- C3: on a 100 by 100 face image, 16 left-eye landmarks averaging to
normalized (0.3, 0.5) and 16 right-eye landmarks averaging to (0.7, 0.5)
give eye centres with roll angle exactly 0 and eyes midpoint (50, 50). -/
theorem claim_C3 (L R : List Landmark) (hL : L.length = 16) (hR : R.length = 16)
    (hLx : (L.map Landmark.x).sum / (L.length : ℚ) = 3/10)
    (hLy : (L.map Landmark.y).sum / (L.length : ℚ) = 1/2)
    (hRx : (R.map Landmark.x).sum / (R.length : ℚ) = 7/10)
    (hRy : (R.map Landmark.y).sum / (R.length : ℚ) = 1/2) :
    get_face_roll_angle (get_left_and_right_eye_centres L R 100 100).1
      (get_left_and_right_eye_centres L R 100 100).2 = 0 ∧
    get_eyes_midpoint (get_left_and_right_eye_centres L R 100 100).1
      (get_left_and_right_eye_centres L R 100 100).2 100 = (50, 50) := by
  rw [hL] at hLx hLy
  rw [hR] at hRx hRy
  have hx : (L.map Landmark.x).sum = 24/5 := by
    have h16 : ((16 : ℕ) : ℚ) ≠ 0 := by norm_num
    field_simp at hLx
    linarith
  have hy : (L.map Landmark.y).sum = 8 := by
    field_simp at hLy
    linarith
  have hx2 : (R.map Landmark.x).sum = 56/5 := by
    field_simp at hRx
    linarith
  have hy2 : (R.map Landmark.y).sum = 8 := by
    field_simp at hRy
    linarith
  have hc : get_left_and_right_eye_centres L R 100 100 = ((30, 49), (70, 49)) := by
    unfold get_left_and_right_eye_centres
    rw [hx, hy, hx2, hy2, hL, hR]
    norm_num [rint]
  rw [hc]
  constructor
  · norm_num [get_face_roll_angle]
  · norm_num [get_eyes_midpoint, rint]

/-- C3 witness at concrete landmark lists. -/
theorem claim_C3_witness :
    get_face_roll_angle (get_left_and_right_eye_centres exL3 exR3 100 100).1
      (get_left_and_right_eye_centres exL3 exR3 100 100).2 = 0 ∧
    get_eyes_midpoint (get_left_and_right_eye_centres exL3 exR3 100 100).1
      (get_left_and_right_eye_centres exL3 exR3 100 100).2 100 = (50, 50) :=
  claim_C3 exL3 exR3 (by norm_num [exL3]) (by norm_num [exR3])
    (by norm_num [exL3, List.replicate])
    (by norm_num [exL3, List.replicate])
    (by norm_num [exR3, List.replicate])
    (by norm_num [exR3, List.replicate])

/-- C6: for nonempty landmark lists, each eye centre is the pair
(round(mean x times width), round(height - 1 - mean y times height)), with
the same height-up flip applied to both eyes. -/
theorem claim_C6 (left_eye_landmarks right_eye_landmarks : List Landmark)
    (image_width image_height : ℕ)
    (hL : left_eye_landmarks ≠ []) (hR : right_eye_landmarks ≠ []) :
    get_left_and_right_eye_centres left_eye_landmarks right_eye_landmarks
        image_width image_height =
      ((rint (((left_eye_landmarks.map Landmark.x).sum / (left_eye_landmarks.length : ℚ)) *
          (image_width : ℚ)),
        rint ((image_height : ℚ) - 1 -
          ((left_eye_landmarks.map Landmark.y).sum / (left_eye_landmarks.length : ℚ)) *
            (image_height : ℚ))),
       (rint (((right_eye_landmarks.map Landmark.x).sum / (right_eye_landmarks.length : ℚ)) *
          (image_width : ℚ)),
        rint ((image_height : ℚ) - 1 -
          ((right_eye_landmarks.map Landmark.y).sum / (right_eye_landmarks.length : ℚ)) *
            (image_height : ℚ)))) := by
  have e1 : ∀ (s : ℚ) (n w : ℕ), s * (w : ℚ) / (n : ℚ) = s / (n : ℚ) * (w : ℚ) := by
    intro s n w
    ring
  unfold get_left_and_right_eye_centres
  simp only [e1]

/-- C6 witness at concrete one-landmark lists. -/
theorem claim_C6_witness :
    get_left_and_right_eye_centres [{ x := 0, y := 0 }] [{ x := 1/2, y := 0 }] 10 10 =
      ((0, 9), (5, 9)) := by
  have h := claim_C6 [{ x := 0, y := 0 }] [{ x := 1/2, y := 0 }] 10 10
    (by simp) (by simp)
  rw [h]
  norm_num [rint]

/-- C4: the roll angle branch structure, equal-y check first: 0 when rows
are equal and right.x is at least left.x; 180 when rows are equal and
right.x is below left.x; 90 and 270 at the vertical alignments; otherwise
np.degrees of the arctangent of the gradient, with 180 added when right.x
is below left.x. -/
theorem claim_C4 (left_eye_centre right_eye_centre : ℤ × ℤ) :
    (right_eye_centre.2 = left_eye_centre.2 → right_eye_centre.1 ≥ left_eye_centre.1 →
      get_face_roll_angle left_eye_centre right_eye_centre = 0) ∧
    (right_eye_centre.2 = left_eye_centre.2 → right_eye_centre.1 < left_eye_centre.1 →
      get_face_roll_angle left_eye_centre right_eye_centre = 180) ∧
    (right_eye_centre.1 = left_eye_centre.1 → right_eye_centre.2 > left_eye_centre.2 →
      get_face_roll_angle left_eye_centre right_eye_centre = 90) ∧
    (right_eye_centre.1 = left_eye_centre.1 → right_eye_centre.2 < left_eye_centre.2 →
      get_face_roll_angle left_eye_centre right_eye_centre = 270) ∧
    (right_eye_centre.2 ≠ left_eye_centre.2 → right_eye_centre.1 > left_eye_centre.1 →
      get_face_roll_angle left_eye_centre right_eye_centre =
        Real.arctan (((right_eye_centre.2 : ℝ) - (left_eye_centre.2 : ℝ)) /
          ((right_eye_centre.1 : ℝ) - (left_eye_centre.1 : ℝ))) * 180 / Real.pi) ∧
    (right_eye_centre.2 ≠ left_eye_centre.2 → right_eye_centre.1 < left_eye_centre.1 →
      get_face_roll_angle left_eye_centre right_eye_centre =
        180 + Real.arctan (((right_eye_centre.2 : ℝ) - (left_eye_centre.2 : ℝ)) /
          ((right_eye_centre.1 : ℝ) - (left_eye_centre.1 : ℝ))) * 180 / Real.pi) := by
  unfold get_face_roll_angle
  refine ⟨fun h1 h2 => ?_, fun h1 h2 => ?_, fun h1 h2 => ?_, fun h1 h2 => ?_,
    fun h1 h2 => ?_, fun h1 h2 => ?_⟩
  · rw [if_pos h1, if_pos h2]
  · rw [if_pos h1, if_neg (not_le.mpr h2)]
  · rw [if_neg (ne_of_gt h2), if_pos h1, if_pos h2]
  · rw [if_neg (ne_of_lt h2), if_pos h1, if_neg (not_lt.mpr (le_of_lt h2))]
  · rw [if_neg h1, if_neg (ne_of_gt h2), if_pos h2]
  · rw [if_neg h1, if_neg (ne_of_lt h2), if_neg (not_lt.mpr (le_of_lt h2))]

/-- C4 witness covering all six branches at concrete eye centres. -/
theorem claim_C4_witness :
    get_face_roll_angle (0, 0) (2, 0) = 0 ∧
    get_face_roll_angle (0, 0) (-2, 0) = 180 ∧
    get_face_roll_angle (0, 0) (0, 2) = 90 ∧
    get_face_roll_angle (0, 0) (0, -2) = 270 ∧
    get_face_roll_angle (0, 0) (2, 2) =
      Real.arctan ((((2 : ℤ) : ℝ) - ((0 : ℤ) : ℝ)) / (((2 : ℤ) : ℝ) - ((0 : ℤ) : ℝ))) *
        180 / Real.pi ∧
    get_face_roll_angle (0, 0) (-2, 2) =
      180 + Real.arctan ((((2 : ℤ) : ℝ) - ((0 : ℤ) : ℝ)) /
        ((((-2) : ℤ) : ℝ) - ((0 : ℤ) : ℝ))) * 180 / Real.pi :=
  ⟨(claim_C4 (0, 0) (2, 0)).1 rfl (by norm_num),
   (claim_C4 (0, 0) (-2, 0)).2.1 rfl (by norm_num),
   (claim_C4 (0, 0) (0, 2)).2.2.1 rfl (by norm_num),
   (claim_C4 (0, 0) (0, -2)).2.2.2.1 rfl (by norm_num),
   (claim_C4 (0, 0) (2, 2)).2.2.2.2.1 (by norm_num) (by norm_num),
   (claim_C4 (0, 0) (-2, 2)).2.2.2.2.2 (by norm_num) (by norm_num)⟩

/-- C9: the gradient division of get_face_roll_angle is never a division by
zero: the guarded variant, which would return none on a zero denominator,
always succeeds and agrees with the unguarded embedding, because the
equal-x branch is checked before the gradient branch. -/
theorem claim_C9 (left_eye_centre right_eye_centre : ℤ × ℤ) :
    get_face_roll_angle_checked left_eye_centre right_eye_centre =
      some (get_face_roll_angle left_eye_centre right_eye_centre) := by
  unfold get_face_roll_angle_checked get_face_roll_angle
  by_cases h1 : right_eye_centre.2 = left_eye_centre.2
  · rw [if_pos h1, if_pos h1]
    split_ifs <;> rfl
  · rw [if_neg h1, if_neg h1]
    by_cases h2 : right_eye_centre.1 = left_eye_centre.1
    · rw [if_pos h2, if_pos h2]
      split_ifs <;> rfl
    · have hd : ((right_eye_centre.1 : ℝ) - (left_eye_centre.1 : ℝ)) ≠ 0 := by
        intro h
        apply h2
        exact_mod_cast sub_eq_zero.mp h
      rw [if_neg h2, if_neg h2, if_neg hd]
      split_ifs <;> rfl

/-- C9 witness: the guarded variant succeeds at a concrete diagonal pair. -/
theorem claim_C9_witness :
    get_face_roll_angle_checked (0, 0) (3, 1) = some (get_face_roll_angle (0, 0) (3, 1)) :=
  claim_C9 (0, 0) (3, 1)

/-- A concrete rotation matrix: the identity affine transform. -/
def exM7 : RotM := { a00 := 1, a01 := 0, a02 := 0, a10 := 0, a11 := 1, a12 := 0 }

/-- C7: the claim promises a 2 by n output for every list of n landmarks,
but the hard-coded homogeneous row [1, 1, 1, 1] makes rotate_landmarks fail
on any list whose length is not 4: on a 3 landmark list the np.array input
is ragged and the call raises, modelled as none. -/
theorem claim_C7_code_bug :
    rotate_landmarks [{ x := 0, y := 0 }, { x := 1/2, y := 1/2 }, { x := 1, y := 1 }]
      exM7 100 100 = none := by
  norm_num [rotate_landmarks]

theorem process_face_isSome (landmarkDetector : Image → Option LandmarkSet)
    (warpAffine : Image → RotM → ℕ × ℕ → Image) (image : Image) (face_box : RelBox) :
    (process_face landmarkDetector warpAffine image face_box).isSome =
      (landmarkDetector (get_face_image image face_box)).isSome := by
  unfold process_face
  cases landmarkDetector (get_face_image image face_box) <;> rfl

theorem process_face_none_iff (landmarkDetector : Image → Option LandmarkSet)
    (warpAffine : Image → RotM → ℕ × ℕ → Image) (image : Image) (face_box : RelBox) :
    process_face landmarkDetector warpAffine image face_box = none ↔
      landmarkDetector (get_face_image image face_box) = none := by
  unfold process_face
  cases landmarkDetector (get_face_image image face_box) <;> simp

theorem length_filterMap_eq_length_filter {α β : Type} (l : List α) (f : α → Option β) :
    (l.filterMap f).length = (l.filter (fun a => (f a).isSome)).length := by
  induction l with
  | nil => rfl
  | cons a t ih =>
      cases h : f a <;>
        simp [List.filterMap_cons, List.filter_cons, h, ih]

/-- C8 amended: crop_faces_from_image returns none exactly when the Face
Localizer returns none; an empty detection list yields an empty result
list, not none. When the localizer returns a list of faces, the result
collects in order one cropped image per face for which the Landmark
Locator succeeded: its length is the number of faces with landmarks, and a
face is dropped exactly when the locator returns none for it, each face
being processed independently of the others. -/
theorem claim_C8_amended (faceDetector : Image → Option (List RelBox))
    (landmarkDetector : Image → Option LandmarkSet)
    (warpAffine : Image → RotM → ℕ × ℕ → Image) (image : Image) :
    (crop_faces_from_image faceDetector landmarkDetector warpAffine image = none ↔
      faceDetector image = none) ∧
    ∀ detected_faces : List RelBox, faceDetector image = some detected_faces →
      crop_faces_from_image faceDetector landmarkDetector warpAffine image =
        some (detected_faces.filterMap (process_face landmarkDetector warpAffine image)) ∧
      (detected_faces.filterMap (process_face landmarkDetector warpAffine image)).length =
        (detected_faces.filter
          (fun face_box => (landmarkDetector (get_face_image image face_box)).isSome)).length ∧
      ∀ face_box : RelBox,
        (process_face landmarkDetector warpAffine image face_box = none ↔
          landmarkDetector (get_face_image image face_box) = none) := by
  constructor
  · unfold crop_faces_from_image
    cases h : faceDetector image <;> simp
  · intro detected_faces hfd
    refine ⟨?_, ?_, fun face_box => process_face_none_iff _ _ _ _⟩
    · unfold crop_faces_from_image
      rw [hfd]
    · rw [length_filterMap_eq_length_filter]
      have hp : (fun face_box =>
          (process_face landmarkDetector warpAffine image face_box).isSome) = fun face_box =>
          (landmarkDetector (get_face_image image face_box)).isSome := by
        funext face_box
        exact process_face_isSome _ _ _ _
      rw [hp]

/-- A 1 by 1 test image for the C8 scenarios. -/
def img8 : Image := { height := 1, width := 1, pixel := fun _ _ => 0 }

/-- C8: the claim that an empty detection list also yields none fails: a
localizer returning the empty list makes crop_faces_from_image return the
empty list, which is not none. -/
theorem claim_C8_counterexample :
    crop_faces_from_image (fun _ => some []) (fun _ => none) (fun i _ _ => i) img8 ≠ none := by
  unfold crop_faces_from_image
  simp

/-- A one-face detection list for the C8 witness. -/
def faces8 : List RelBox := [{ xmin := 0, ymin := 0, width := 1, height := 1 }]

/-- A landmark detector stub for the C8 witness. -/
def ld8 : Image → Option LandmarkSet := fun _ => some (fun _ => { x := 1/2, y := 1/2 })

/-- A warp stub for the C8 witness. -/
def wa8 : Image → RotM → ℕ × ℕ → Image := fun i _ _ => i

/-- C8 witness: with a localizer reporting one face, the result is the list
of processed faces. -/
theorem claim_C8_witness :
    crop_faces_from_image (fun _ => some faces8) ld8 wa8 img8 =
      some (faces8.filterMap (process_face ld8 wa8 img8)) :=
  ((claim_C8_amended (fun _ => some faces8) ld8 wa8 img8).2 faces8 rfl).1
